import Mathlib

/-!
Shallow embedding of the EOD (end-of-day) metric submission and analytics
logic of the sales-dashboard repository.

Conventions of the embedding:
o JavaScript numbers are modelled as values of type Option Rat, where the
  value none plays the role of NaN (the result of coercing a missing or
  non-numeric form field with Number).  The comparison operators jgt, jlt,
  jle, jeq return false whenever an operand is NaN, and jne returns true,
  exactly as the corresponding JavaScript operators do; jadd propagates NaN.
o The JavaScript errors object (string keys to string messages, assignment
  semantics) is modelled as an association list built by setErr, which
  replaces the entry for an existing key and appends a new entry otherwise.
o Instants are modelled as integer milliseconds on a fixed-offset timeline
  (the date-fns helpers startOfDay, endOfDay, subDays on that timeline).
o The database state relevant to one submission, namely the record stored
  under the unique (personId, date) key targeted by the request, is modelled
  as an Option holding the stored metric fields; an upsert writes some m.
-/

/-- A JavaScript number: a rational, or none standing for NaN. -/
abbrev JsNum := Option ℚ

/-- JavaScript addition: NaN propagates. -/
def jadd : JsNum → JsNum → JsNum
  | some a, some b => some (a + b)
  | _, _ => none

/-- JavaScript subtraction: NaN propagates. -/
def jsub : JsNum → JsNum → JsNum
  | some a, some b => some (a - b)
  | _, _ => none

/-- JavaScript strict greater-than: false if an operand is NaN. -/
def jgt : JsNum → JsNum → Bool
  | some a, some b => decide (b < a)
  | _, _ => false

/-- JavaScript strict less-than: false if an operand is NaN. -/
def jlt : JsNum → JsNum → Bool
  | some a, some b => decide (a < b)
  | _, _ => false

/-- JavaScript less-or-equal: false if an operand is NaN. -/
def jle : JsNum → JsNum → Bool
  | some a, some b => decide (a ≤ b)
  | _, _ => false

/-- JavaScript loose equality on numbers: false if an operand is NaN. -/
def jeq : JsNum → JsNum → Bool
  | some a, some b => decide (a = b)
  | _, _ => false

/-- JavaScript loose inequality on numbers: true if an operand is NaN. -/
def jne : JsNum → JsNum → Bool
  | some a, some b => decide (a ≠ b)
  | _, _ => true

/-- The errors object of a submission handler: field key to message. -/
abbrev ErrMap := List (String × String)

/-- Assignment errors[k] = v on the errors object: replace the entry for an
existing key, append a new entry otherwise. -/
def setErr (e : ErrMap) (k v : String) : ErrMap :=
  if e.any (fun p => p.1 == k) then
    e.map (fun p => if p.1 == k then (k, v) else p)
  else e ++ [(k, v)]

/-- Lookup of a key in the errors object. -/
def lookupErr (e : ErrMap) (k : String) : Option String :=
  (e.find? (fun p => p.1 == k)).map Prod.snd

/-- The per-field test isNaN(value) or value less than 0 applied by every
role before the cross-field chain. -/
def badNum (v : JsNum) : Bool := v.isNone || jlt v (some 0)

/-- The field-independent part shared verbatim by the three role actions:
the date presence check followed by the per-field numeric check over the
metric entries in declaration order. -/
def baseErrors (date : String) (fields : List (String × JsNum)) : ErrMap :=
  fields.foldl
    (fun e p => if badNum p.2 then setErr e p.1 "Please enter a valid number" else e)
    (if date = "" then setErr [] "date" "Please select a date" else [])

/-- Metric fields of one dialer EOD submission (source: the dialer route
action, fields coerced with Number in declaration order). -/
structure DialerMetrics where
  dials : JsNum
  connects : JsNum
  conversations : JsNum
  qualifiedConversations : JsNum
  meetingsScheduled : JsNum
  meetingsSet : JsNum
  meetingsShowed : JsNum
  noShows : JsNum
  closedDeals : JsNum
  revenueGenerated : JsNum
  cashCollected : JsNum
deriving DecidableEq

/-- The dialer metric entries in the declaration order used by the
Object.entries iteration of the action. -/
def dialerEntries (m : DialerMetrics) : List (String × JsNum) :=
  [("dials", m.dials), ("connects", m.connects), ("conversations", m.conversations),
   ("qualifiedConversations", m.qualifiedConversations),
   ("meetingsScheduled", m.meetingsScheduled), ("meetingsSet", m.meetingsSet),
   ("meetingsShowed", m.meetingsShowed), ("noShows", m.noShows),
   ("closedDeals", m.closedDeals), ("revenueGenerated", m.revenueGenerated),
   ("cashCollected", m.cashCollected)]

/-- The dialer field-validator: date check, per-field checks, then the
cross-field else-if chain, translated rule for rule from the dialer route
action. -/
def dialerValidate (date : String) (m : DialerMetrics) : ErrMap :=
  let errors := baseErrors date (dialerEntries m)
  if jgt m.connects m.dials then
    setErr errors "connects" "Connects cannot exceed Dials"
  else if jgt m.conversations m.connects then
    setErr errors "conversations" "Conversations cannot exceed Connects"
  else if jgt m.qualifiedConversations m.conversations then
    setErr errors "qualifiedConversations" "Qualified Conversations cannot exceed Conversations"
  else if jlt m.meetingsScheduled (some 0) then
    setErr errors "meetingsScheduled" "Meetings Scheduled cannot be negative"
  else if jgt m.meetingsShowed m.meetingsSet then
    setErr errors "meetingsShowed" "Meetings Showed cannot exceed Meetings Set"
  else if jgt m.noShows m.meetingsSet then
    setErr errors "noShows" "No Shows cannot exceed Meetings Set"
  else if jne m.meetingsSet (jadd m.meetingsShowed m.noShows) then
    setErr errors "meetingsSet" "Meetings Set must equal Meetings Showed + No Shows"
  else if jgt m.closedDeals m.meetingsShowed then
    setErr errors "closedDeals" "Closed Deals cannot exceed Meetings Showed"
  else if jlt m.revenueGenerated (some 0) && jgt m.closedDeals (some 0) then
    setErr errors "revenueGenerated" "Revenue Generated must be greater than 0 if Closed Deals > 0"
  else if jgt m.cashCollected (some 0) && jle m.closedDeals (some 0) then
    setErr errors "closedDeals" "Closed Deals must be greater than 0 if cash was collected"
  else errors

/-- Metric fields of one closer EOD submission (source: the closer route
action). -/
structure CloserMetrics where
  dailyCallsBooked : JsNum
  shows : JsNum
  noShows : JsNum
  cancelled : JsNum
  disqualified : JsNum
  rescheduled : JsNum
  offersMade : JsNum
  callsTaken : JsNum
  closes : JsNum
  cashCollected : JsNum
  revenueGenerated : JsNum
deriving DecidableEq

/-- The closer metric entries in declaration order. -/
def closerEntries (m : CloserMetrics) : List (String × JsNum) :=
  [("dailyCallsBooked", m.dailyCallsBooked), ("shows", m.shows), ("noShows", m.noShows),
   ("cancelled", m.cancelled), ("disqualified", m.disqualified),
   ("rescheduled", m.rescheduled), ("offersMade", m.offersMade),
   ("callsTaken", m.callsTaken), ("closes", m.closes),
   ("cashCollected", m.cashCollected), ("revenueGenerated", m.revenueGenerated)]

/-- The closer field-validator, translated rule for rule from the closer
route action. -/
def closerValidate (date : String) (m : CloserMetrics) : ErrMap :=
  let errors := baseErrors date (closerEntries m)
  if jne m.dailyCallsBooked
      (jadd (jadd (jadd (jadd m.shows m.noShows) m.cancelled) m.disqualified) m.rescheduled) then
    setErr errors "dailyCallsBooked"
      "Daily Calls Booked must equal the sum of Shows, No Shows, Cancelled, Disqualified, and Rescheduled"
  else if jgt m.shows
      (jsub (jsub (jsub m.dailyCallsBooked m.cancelled) m.disqualified) m.rescheduled) then
    setErr errors "shows"
      "Shows cannot exceed Daily Calls Booked minus Cancelled, Disqualified, and Rescheduled"
  else if jgt m.noShows
      (jsub (jsub (jsub (jsub m.dailyCallsBooked m.shows) m.cancelled) m.disqualified)
        m.rescheduled) then
    setErr errors "noShows"
      "No Shows cannot exceed Daily Calls Booked minus Shows, Cancelled, Disqualified, and Rescheduled"
  else if jeq m.dailyCallsBooked (some 0) && jgt m.shows (some 0) then
    setErr errors "shows" "Shows cannot be greater than 0 if Daily Calls Booked is 0"
  else if jeq m.dailyCallsBooked (some 0) && jgt m.noShows (some 0) then
    setErr errors "noShows" "No Shows cannot be greater than 0 if Daily Calls Booked is 0"
  else if jgt m.cancelled m.dailyCallsBooked then
    setErr errors "cancelled" "Cancelled cannot exceed Daily Calls Booked"
  else if jgt m.rescheduled m.dailyCallsBooked then
    setErr errors "rescheduled" "Rescheduled cannot exceed Daily Calls Booked"
  else if jgt m.callsTaken m.dailyCallsBooked then
    setErr errors "callsTaken" "Calls Taken cannot exceed Daily Calls Booked"
  else if jgt m.offersMade m.callsTaken then
    setErr errors "offersMade" "Offers Made cannot exceed Calls Taken"
  else if jgt m.closes m.callsTaken then
    setErr errors "closes" "Closes cannot exceed Calls Taken"
  else if jgt m.closes m.offersMade then
    setErr errors "closes" "Closes cannot exceed Offers Made"
  else if jgt m.cashCollected (some 0) && jle m.closes (some 0) then
    setErr errors "closes" "Closes must be greater than 0 if Cash Collected > 0"
  else if jgt m.revenueGenerated (some 0) && jle m.closes (some 0) then
    setErr errors "closes" "Closes must be greater than 0 if Revenue Generated > 0"
  else errors

/-- Metric fields of one setter EOD submission (source: the setter route
action). -/
structure SetterMetrics where
  dailyOutboundConversations : JsNum
  inboundConversations : JsNum
  followUps : JsNum
  callsProposed : JsNum
  totalHighTicketSalesCallsBooked : JsNum
  setsScheduled : JsNum
  setsTaken : JsNum
  closedSets : JsNum
  revenueGenerated : JsNum
  newCashCollected : JsNum
  recurringCashCollected : JsNum
  downsellRevenue : JsNum
deriving DecidableEq

/-- The setter metric entries in declaration order. -/
def setterEntries (m : SetterMetrics) : List (String × JsNum) :=
  [("dailyOutboundConversations", m.dailyOutboundConversations),
   ("inboundConversations", m.inboundConversations), ("followUps", m.followUps),
   ("callsProposed", m.callsProposed),
   ("totalHighTicketSalesCallsBooked", m.totalHighTicketSalesCallsBooked),
   ("setsScheduled", m.setsScheduled), ("setsTaken", m.setsTaken),
   ("closedSets", m.closedSets), ("revenueGenerated", m.revenueGenerated),
   ("newCashCollected", m.newCashCollected),
   ("recurringCashCollected", m.recurringCashCollected),
   ("downsellRevenue", m.downsellRevenue)]

/-- The setter field-validator, translated rule for rule from the setter
route action. -/
def setterValidate (date : String) (m : SetterMetrics) : ErrMap :=
  let errors := baseErrors date (setterEntries m)
  if jgt m.callsProposed
      (jadd (jadd m.dailyOutboundConversations m.inboundConversations) m.followUps) then
    setErr errors "callsProposed"
      "Cannot exceed New Outbound Convos + New Inbound Convos + Follow-Ups"
  else if jlt m.callsProposed m.totalHighTicketSalesCallsBooked then
    setErr errors "totalHighTicketSalesCallsBooked" "Cannot exceed Calls Proposed"
  else if jgt m.setsTaken m.setsScheduled then
    setErr errors "setsTaken" "Cannot exceed Sets Scheduled Today"
  else if jgt m.closedSets m.setsTaken then
    setErr errors "closedSets" "Cannot exceed Sets Taken Today"
  else if jlt m.revenueGenerated
      (jadd (jadd m.newCashCollected m.recurringCashCollected) m.downsellRevenue) then
    setErr errors "revenueGenerated"
      "Must be greater than or equal to New Cash Collected + Recurring Cash Collected + Downsell Revenue"
  else if jgt m.newCashCollected m.revenueGenerated then
    setErr errors "newCashCollected" "Cannot exceed Revenue Generated"
  else if jgt m.recurringCashCollected m.revenueGenerated then
    setErr errors "recurringCashCollected" "Cannot exceed Revenue Generated"
  else if jgt m.downsellRevenue m.revenueGenerated then
    setErr errors "downsellRevenue" "Cannot exceed Revenue Generated"
  else errors

/-- The terminal outcome of one submission request. -/
inductive SubmitOutcome where
  | conflict (existingDate : String)
  | rejected (errors : ErrMap)
  | success
deriving DecidableEq

/-- The closer write endpoint: validation, then the existing-record check
under the closerId and date key unless forceOverwrite is set, then the
errors return, then the upsert.  The stored argument is the record currently
persisted under the targeted (personId, date) key; the second component of
the result is that slot after the request. -/
def closerAction (date : String) (forceOverwrite : Bool) (m : CloserMetrics)
    (stored : Option CloserMetrics) : SubmitOutcome × Option CloserMetrics :=
  let errors := closerValidate date m
  if !forceOverwrite && stored.isSome then (SubmitOutcome.conflict date, stored)
  else if errors.length > 0 then (SubmitOutcome.rejected errors, stored)
  else (SubmitOutcome.success, some m)

/-- The dialer write endpoint, same shape as the closer one. -/
def dialerAction (date : String) (forceOverwrite : Bool) (m : DialerMetrics)
    (stored : Option DialerMetrics) : SubmitOutcome × Option DialerMetrics :=
  let errors := dialerValidate date m
  if !forceOverwrite && stored.isSome then (SubmitOutcome.conflict date, stored)
  else if errors.length > 0 then (SubmitOutcome.rejected errors, stored)
  else (SubmitOutcome.success, some m)

/-- The setter write endpoint, same shape as the closer one. -/
def setterAction (date : String) (forceOverwrite : Bool) (m : SetterMetrics)
    (stored : Option SetterMetrics) : SubmitOutcome × Option SetterMetrics :=
  let errors := setterValidate date m
  if !forceOverwrite && stored.isSome then (SubmitOutcome.conflict date, stored)
  else if errors.length > 0 then (SubmitOutcome.rejected errors, stored)
  else (SubmitOutcome.success, some m)

/-- The two messages produced by the date check and the per-field checks. -/
def isFieldMsg (v : String) : Bool :=
  v == "Please select a date" || v == "Please enter a valid number"

/-- Number of cross-field entries of an errors object: entries whose message
is not one of the two per-field messages. -/
def crossCount (e : ErrMap) : ℕ := e.countP (fun p => !(isFieldMsg p.2))

/-- JavaScript Math.round: round to nearest, halves toward positive
infinity. -/
def jsRound (q : ℚ) : ℤ := ⌊q + 1 / 2⌋

/-- The percentage-delta helper of the analytics views (source:
calcPercentageDiff in the dialer and setter analytics routes). -/
def calcPercentageDiff (current previous : ℚ) : ℤ :=
  if previous = 0 then (if 0 < current then 100 else 0)
  else jsRound ((current - previous) / previous * 100)

/-- Milliseconds per calendar day on the fixed-offset timeline of the
embedding. -/
def msPerDay : ℤ := 86400000

/-- date-fns startOfDay on the fixed-offset timeline: truncate the instant
to its day boundary. -/
def startOfDay (t : ℤ) : ℤ := t - t % msPerDay

/-- date-fns endOfDay: last millisecond of the day of the instant. -/
def endOfDay (t : ℤ) : ℤ := startOfDay t + msPerDay - 1

/-- date-fns subDays: shift an instant back a number of days. -/
def subDays (t : ℤ) (n : ℤ) : ℤ := t - n * msPerDay

/-- date-fns differenceInDays on the fixed-offset timeline: full days
between two instants, truncated toward zero. -/
def differenceInDays (a b : ℤ) : ℤ := Int.tdiv (a - b) msPerDay

/-- The resolved current and previous windows and day counts of one
analytics request. -/
structure ResolvedRange where
  startT : ℤ
  endT : ℤ
  previousStart : ℤ
  previousEnd : ℤ
  daysInRange : ℤ
  daysInPreviousRange : ℤ
deriving DecidableEq

/-- The range-selection query parameters of one analytics request. -/
structure AnalyticsQuery where
  range : String
  startDate : Option String
  endDate : Option String

/-- JavaScript truthiness of an optional query-string value. -/
def strTruthy : Option String → Bool
  | none => false
  | some s => decide (s ≠ "")

/-- The range resolver of the analytics loader, translated branch for
branch from the source: the custom branch with its silent fallback on
unparsable dates, then the 24h, 7d and default 30d presets.  The parseISO
argument models the external date-fns parser as a partial function to an
instant; time-zone conversion is the identity on the fixed-offset
timeline. -/
def resolveRange (parseISO : String → Option ℤ) (q : AnalyticsQuery)
    (now : ℤ) : ResolvedRange :=
  let e := endOfDay now
  if q.range = "custom" ∧ strTruthy q.startDate ∧ strTruthy q.endDate then
    match parseISO (q.startDate.getD ""), parseISO (q.endDate.getD "") with
    | some ps, some pe =>
        let s := startOfDay ps
        let e2 := endOfDay pe
        let days := differenceInDays e2 s + 1
        { startT := s, endT := e2,
          previousStart := startOfDay (subDays s days),
          previousEnd := endOfDay (subDays e2 days),
          daysInRange := days, daysInPreviousRange := days }
    | _, _ =>
        let s := startOfDay (subDays e 30)
        let e2 := endOfDay e
        { startT := s, endT := e2,
          previousStart := startOfDay (subDays s 30),
          previousEnd := endOfDay (subDays e2 30),
          daysInRange := 30, daysInPreviousRange := 30 }
  else if q.range = "24h" then
    let s := startOfDay now
    { startT := s, endT := e,
      previousStart := startOfDay (subDays s 1),
      previousEnd := endOfDay (subDays e 1),
      daysInRange := 1, daysInPreviousRange := 1 }
  else if q.range = "7d" then
    let s := startOfDay (subDays e 6)
    { startT := s, endT := e,
      previousStart := startOfDay (subDays s 7),
      previousEnd := endOfDay (subDays e 7),
      daysInRange := 7, daysInPreviousRange := 7 }
  else
    let s := startOfDay (subDays e 29)
    { startT := s, endT := e,
      previousStart := startOfDay (subDays s 30),
      previousEnd := endOfDay (subDays e 30),
      daysInRange := 30, daysInPreviousRange := 30 }

/-- One setter metric row as consumed by the revenue-over-time chart of the
setter analytics view.  The day field is the calendar-day index produced by
formatting the row date as yyyy-MM-dd in the caller zone (grouping key and
sort key coincide for well-formed dates). -/
structure SetterRow where
  day : ℤ
  revenueGenerated : JsNum
  newCashCollected : JsNum
  recurringCashCollected : JsNum
  downsellRevenue : JsNum
deriving DecidableEq

/-- safeNumber from the setter analytics view: a number that is not NaN, or
zero. -/
def safeNumber (v : JsNum) : ℚ := v.getD 0

/-- One day bucket of the revenue-over-time series. -/
structure RevenueBucket where
  revenueGenerated : ℚ
  newCashCollected : ℚ
  recurringCashCollected : ℚ
  downsellRevenue : ℚ
deriving DecidableEq

/-- The zero bucket created when a day is first seen. -/
def emptyBucket : RevenueBucket := ⟨0, 0, 0, 0⟩

/-- Accumulate one row into a bucket: the four compound assignments of the
reducer body. -/
def bucketAdd (b : RevenueBucket) (r : SetterRow) : RevenueBucket :=
  { revenueGenerated := b.revenueGenerated + safeNumber r.revenueGenerated,
    newCashCollected := b.newCashCollected + safeNumber r.newCashCollected,
    recurringCashCollected := b.recurringCashCollected + safeNumber r.recurringCashCollected,
    downsellRevenue := b.downsellRevenue + safeNumber r.downsellRevenue }

/-- One step of the dailyRevenueData reducer: create the day bucket if
absent, then accumulate the row into it. -/
def addRow (acc : List (ℤ × RevenueBucket)) (r : SetterRow) : List (ℤ × RevenueBucket) :=
  if acc.any (fun p => p.1 == r.day) then
    acc.map (fun p => if p.1 == r.day then (p.1, bucketAdd p.2 r) else p)
  else acc ++ [(r.day, bucketAdd emptyBucket r)]

/-- The dailyRevenueData reduction of the setter analytics view: group the
rows by calendar day and sum the four revenue-like fields per day. -/
def dailyRevenueData (rows : List SetterRow) : List (ℤ × RevenueBucket) :=
  rows.foldl addRow []

/-- Lookup of one day key in the accumulated record object. -/
def lookupBucket (acc : List (ℤ × RevenueBucket)) (k : ℤ) : Option RevenueBucket :=
  (acc.find? (fun p => p.1 == k)).map Prod.snd

/-- The sortedDates computation of the setter analytics view: the keys of
dailyRevenueData sorted ascending by parsed date. -/
def sortedDates (rows : List SetterRow) : List ℤ :=
  ((dailyRevenueData rows).map Prod.fst).mergeSort

/-- Characterization of jadd on numeric operands. -/
theorem jadd_some (a b : ℚ) : jadd (some a) (some b) = some (a + b) := rfl

/-- Characterization of jsub on numeric operands. -/
theorem jsub_some (a b : ℚ) : jsub (some a) (some b) = some (a - b) := rfl

/-- Characterization of jgt on numeric operands. -/
theorem jgt_some (a b : ℚ) : (jgt (some a) (some b) = true) ↔ b < a := by simp [jgt]

/-- Characterization of jlt on numeric operands. -/
theorem jlt_some (a b : ℚ) : (jlt (some a) (some b) = true) ↔ a < b := by simp [jlt]

/-- Characterization of jle on numeric operands. -/
theorem jle_some (a b : ℚ) : (jle (some a) (some b) = true) ↔ a ≤ b := by simp [jle]

/-- Characterization of jeq on numeric operands. -/
theorem jeq_some (a b : ℚ) : (jeq (some a) (some b) = true) ↔ a = b := by simp [jeq]

/-- Characterization of jne on numeric operands. -/
theorem jne_some (a b : ℚ) : (jne (some a) (some b) = true) ↔ a ≠ b := by simp [jne]

/-- A numeric field passes the per-field check exactly when it is non-negative. -/
theorem badNum_some (a : ℚ) : badNum (some a) = false ↔ 0 ≤ a := by
  simp [badNum, jlt, not_lt]

/-- When the date is present and every field passes the per-field check,
the field-independent part contributes no errors. -/
theorem baseErrors_eq_nil (date : String) (fields : List (String × JsNum))
    (hd : ¬(date = "")) (h : ∀ p ∈ fields, badNum p.2 = false) :
    baseErrors date fields = [] := by
  unfold baseErrors
  rw [if_neg hd]
  induction fields with
  | nil => rfl
  | cons p l ih =>
    have hp := h p (List.mem_cons_self p l)
    simp only [List.foldl_cons, hp, Bool.false_eq_true, if_false]
    exact ih (fun q hq => h q (List.mem_cons_of_mem p hq))

/-- Membership in the errors object after an assignment: every entry was
already present or is the assigned pair. -/
theorem mem_setErr {p : String × String} {e : ErrMap} {k v : String}
    (h : p ∈ setErr e k v) : p ∈ e ∨ p = (k, v) := by
  unfold setErr at h
  split at h
  case isTrue =>
    rcases List.mem_map.mp h with ⟨q, hq, hfq⟩
    by_cases hk : q.1 = k
    · right
      subst hk
      simp at hfq
      exact hfq.symm
    · left
      have hkb : (q.1 == k) = false := by
        simp [hk]
      simp only [hkb, Bool.false_eq_true, if_false] at hfq
      exact hfq ▸ hq
  case isFalse =>
    rcases List.mem_append.mp h with hq | hq
    · exact Or.inl hq
    · exact Or.inr (List.mem_singleton.mp hq)

/-- Assignment preserves distinctness of the keys of the errors object. -/
theorem nodupKeys_setErr {e : ErrMap} {k v : String}
    (h : (e.map Prod.fst).Nodup) : ((setErr e k v).map Prod.fst).Nodup := by
  unfold setErr
  split
  case isTrue =>
    have hfst : ∀ p : String × String,
        (if p.1 == k then (k, v) else p).1 = p.1 := by
      intro p
      by_cases hk : p.1 = k
      · simp [hk]
      · simp [hk]
    have : (e.map (fun p => if p.1 == k then (k, v) else p)).map Prod.fst
        = e.map Prod.fst := by
      rw [List.map_map]
      exact List.map_congr_left (fun p _ => hfst p)
    rw [this]
    exact h
  case isFalse hany =>
    rw [List.map_append]
    refine List.Nodup.append h (List.nodup_singleton k) ?_
    intro a ha hb
    rcases List.mem_map.mp ha with ⟨q, hq, hfq⟩
    have : a = k := List.mem_singleton.mp hb
    subst this
    apply hany
    exact List.any_eq_true.mpr ⟨q, hq, by simp [hfq]⟩

/-- Looking up the key just assigned returns the assigned message. -/
theorem lookupErr_setErr_self (e : ErrMap) (k v : String) :
    lookupErr (setErr e k v) k = some v := by
  unfold lookupErr setErr
  split
  case isTrue hany =>
    rw [List.find?_map]
    have hpred : ∀ q : String × String,
        ((fun p : String × String => p.1 == k) ∘ fun p => if p.1 == k then (k, v) else p) q
          = (q.1 == k) := by
      intro q
      by_cases hk : q.1 = k
      · simp [Function.comp, hk]
      · simp [Function.comp, hk]
    rw [funext hpred]
    have hsome : (e.find? (fun p => p.1 == k)).isSome := by
      rw [List.find?_isSome]
      rcases List.any_eq_true.mp hany with ⟨q, hq, hqk⟩
      exact ⟨q, hq, hqk⟩
    rcases Option.isSome_iff_exists.mp hsome with ⟨q, hq⟩
    rw [hq]
    have hqk := List.find?_some hq
    simp only [] at hqk
    have hq1 : q.1 = k := by simpa using hqk
    simp [hq1]
  case isFalse hany =>
    have hnone : e.find? (fun p => p.1 == k) = none := by
      rw [List.find?_eq_none]
      intro q hq hqk
      exact hany (List.any_eq_true.mpr ⟨q, hq, hqk⟩)
    rw [List.find?_append, hnone]
    simp

/-- Every entry produced by the date and per-field checks carries one of the
two per-field messages. -/
theorem baseErrors_msgs (date : String) (fields : List (String × JsNum)) :
    ∀ p ∈ baseErrors date fields, isFieldMsg p.2 = true := by
  unfold baseErrors
  have hinit : ∀ p ∈ (if date = "" then setErr ([] : ErrMap) "date" "Please select a date"
      else ([] : ErrMap)), isFieldMsg p.2 = true := by
    intro p hp
    split at hp
    · rcases mem_setErr hp with h | h
      · exact absurd h (List.not_mem_nil p)
      · rw [h]
        rfl
    · exact absurd hp (List.not_mem_nil p)
  revert hinit
  generalize (if date = "" then setErr ([] : ErrMap) "date" "Please select a date"
      else ([] : ErrMap)) = e
  induction fields generalizing e with
  | nil =>
    intro h p hp
    exact h p hp
  | cons q l ih =>
    intro h p hp
    rw [List.foldl_cons] at hp
    refine ih _ ?_ p hp
    intro r hr
    split at hr
    · rcases mem_setErr hr with h2 | h2
      · exact h r h2
      · rw [h2]
        rfl
    · exact h r hr

/-- The date and per-field checks never assign the same key twice. -/
theorem baseErrors_nodupKeys (date : String) (fields : List (String × JsNum)) :
    ((baseErrors date fields).map Prod.fst).Nodup := by
  unfold baseErrors
  have hinit : (((if date = "" then setErr ([] : ErrMap) "date" "Please select a date"
      else ([] : ErrMap))).map Prod.fst).Nodup := by
    split
    · exact nodupKeys_setErr List.nodup_nil
    · exact List.nodup_nil
  revert hinit
  generalize (if date = "" then setErr ([] : ErrMap) "date" "Please select a date"
      else ([] : ErrMap)) = e
  induction fields generalizing e with
  | nil =>
    intro h
    exact h
  | cons q l ih =>
    intro h
    rw [List.foldl_cons]
    refine ih _ ?_
    split
    · exact nodupKeys_setErr h
    · exact h

/-- An errors object all of whose entries carry per-field messages has no
cross-field entry. -/
theorem crossCount_eq_zero {e : ErrMap} (h : ∀ p ∈ e, isFieldMsg p.2 = true) :
    crossCount e = 0 := by
  unfold crossCount
  rw [List.countP_eq_zero]
  intro p hp
  simp [h p hp]

/-- One assignment on an errors object whose entries all carry per-field
messages and whose keys are distinct leaves at most one cross-field entry. -/
theorem crossCount_setErr_le_one {e : ErrMap} (k v : String)
    (hmsg : ∀ p ∈ e, isFieldMsg p.2 = true) (hkeys : (e.map Prod.fst).Nodup) :
    crossCount (setErr e k v) ≤ 1 := by
  unfold crossCount setErr
  split
  case isTrue =>
    rw [List.countP_map]
    have hle : e.countP
        ((fun p : String × String => !(isFieldMsg p.2)) ∘ fun p => if p.1 == k then (k, v) else p)
        ≤ e.countP (fun p => p.1 == k) := by
      refine List.countP_mono_left ?_
      intro p hp hcross
      by_cases hk : p.1 == k
      · exact hk
      · simp only [Function.comp, hk, Bool.false_eq_true, if_false] at hcross
        rw [hmsg p hp] at hcross
        exact absurd hcross (by simp)
    refine hle.trans ?_
    have : e.countP (fun p => p.1 == k) = (e.map Prod.fst).count k := by
      rw [List.count_eq_countP, List.countP_map]
      rfl
    rw [this]
    exact List.nodup_iff_count_le_one.mp hkeys k
  case isFalse =>
    rw [List.countP_append]
    have h0 : e.countP (fun p => !(isFieldMsg p.2)) = 0 := by
      rw [List.countP_eq_zero]
      intro p hp
      simp [hmsg p hp]
    rw [h0]
    simp [List.countP_cons]
    split <;> simp

/-- Helper evaluation: the closer submission of the spec example with a
consistent sum is accepted with an empty errors object. -/
theorem closerValidate_goodSum_eval :
    closerValidate "2025-01-02"
      ⟨some 10, some 4, some 3, some 1, some 1, some 1, some 0, some 0, some 0,
        some 0, some 0⟩ = [] := by
  have hbase : baseErrors "2025-01-02"
      (closerEntries ⟨some 10, some 4, some 3, some 1, some 1, some 1, some 0, some 0, some 0,
        some 0, some 0⟩) = [] := by
    refine baseErrors_eq_nil _ _ (by simp) ?_
    simp [closerEntries, badNum_some]
  simp [closerValidate, hbase, setErr, jadd_some, jsub_some, jgt_some, jlt_some, jle_some,
    jeq_some, jne_some]
  norm_num

/-- Helper evaluation: the same closer submission with rescheduled raised to
two is rejected on the exact-sum rule keyed by dailyCallsBooked. -/
theorem closerValidate_badSum_eval :
    closerValidate "2025-01-02"
      ⟨some 10, some 4, some 3, some 1, some 1, some 2, some 0, some 0, some 0,
        some 0, some 0⟩ =
      [("dailyCallsBooked",
        "Daily Calls Booked must equal the sum of Shows, No Shows, Cancelled, Disqualified, and Rescheduled")] := by
  have hbase : baseErrors "2025-01-02"
      (closerEntries ⟨some 10, some 4, some 3, some 1, some 1, some 2, some 0, some 0, some 0,
        some 0, some 0⟩) = [] := by
    refine baseErrors_eq_nil _ _ (by simp) ?_
    simp [closerEntries, badNum_some]
  simp [closerValidate, hbase, setErr, jadd_some, jsub_some, jgt_some, jlt_some, jle_some,
    jeq_some, jne_some]
  norm_num

/-- C4: the closer field-validator checks the exact-equality rule
dailyCallsBooked equals shows plus noShows plus cancelled plus disqualified
plus rescheduled first among the cross-field rules (whenever the rule fails,
the returned errors object carries the sum message under dailyCallsBooked,
no matter what the other rules would say), and concretely the submission
10, 4, 3, 1, 1, 1 with all other fields zero is accepted with an empty errors
object while changing rescheduled to 2 yields exactly the dailyCallsBooked
cross-field entry. -/
theorem claim_C4_closer_exact_sum_rule_first :
    (∀ (date : String) (m : CloserMetrics),
      jne m.dailyCallsBooked
        (jadd (jadd (jadd (jadd m.shows m.noShows) m.cancelled) m.disqualified)
          m.rescheduled) = true →
      lookupErr (closerValidate date m) "dailyCallsBooked" =
        some "Daily Calls Booked must equal the sum of Shows, No Shows, Cancelled, Disqualified, and Rescheduled") ∧
    closerValidate "2025-01-02"
      ⟨some 10, some 4, some 3, some 1, some 1, some 1, some 0, some 0, some 0,
        some 0, some 0⟩ = [] ∧
    closerValidate "2025-01-02"
      ⟨some 10, some 4, some 3, some 1, some 1, some 2, some 0, some 0, some 0,
        some 0, some 0⟩ =
      [("dailyCallsBooked",
        "Daily Calls Booked must equal the sum of Shows, No Shows, Cancelled, Disqualified, and Rescheduled")] := by
  refine ⟨?_, closerValidate_goodSum_eval, closerValidate_badSum_eval⟩
  intro date m h
  simp only [closerValidate, h, if_true]
  exact lookupErr_setErr_self _ _ _

/-- Witness for C4: the first conjunct applied at the concrete rejected
submission. -/
theorem claim_C4_closer_exact_sum_rule_first_witness :
    lookupErr
      (closerValidate "2025-01-02"
        ⟨some 10, some 4, some 3, some 1, some 1, some 2, some 0, some 0, some 0,
          some 0, some 0⟩) "dailyCallsBooked" =
      some "Daily Calls Booked must equal the sum of Shows, No Shows, Cancelled, Disqualified, and Rescheduled" :=
  claim_C4_closer_exact_sum_rule_first.1 "2025-01-02"
    ⟨some 10, some 4, some 3, some 1, some 1, some 2, some 0, some 0, some 0,
      some 0, some 0⟩
    (by simp [jadd_some, jne_some]; norm_num)

/-- C2 concerns the dialer rule that a submission with closedDeals greater
than zero and revenueGenerated equal to zero must be rejected naming
revenueGenerated.  The source guards that branch with revenueGenerated
strictly less than zero, so on the failing input below (closedDeals 1,
revenueGenerated 0, all consistency rules satisfied) the validator returns
an empty errors object and the submission is accepted: the code contradicts
its own error message, which reads that Revenue Generated must be greater
than 0 if Closed Deals is greater than 0. -/
theorem claim_C2_dialer_revenue_rule_dead_on_failing_input :
    dialerValidate "2025-01-02"
      ⟨some 1, some 1, some 1, some 1, some 0, some 1, some 1, some 0, some 1,
        some 0, some 0⟩ = [] ∧
    lookupErr
      (dialerValidate "2025-01-02"
        ⟨some 1, some 1, some 1, some 1, some 0, some 1, some 1, some 0, some 1,
          some 0, some 0⟩) "revenueGenerated" = none := by
  have hval : dialerValidate "2025-01-02"
      ⟨some 1, some 1, some 1, some 1, some 0, some 1, some 1, some 0, some 1,
        some 0, some 0⟩ = [] := by
    have hbase : baseErrors "2025-01-02"
        (dialerEntries ⟨some 1, some 1, some 1, some 1, some 0, some 1, some 1, some 0, some 1,
          some 0, some 0⟩) = [] := by
      refine baseErrors_eq_nil _ _ (by simp) ?_
      simp [dialerEntries, badNum_some]
    simp [dialerValidate, hbase, setErr, jadd_some, jsub_some, jgt_some, jlt_some, jle_some,
      jeq_some, jne_some]
  refine ⟨hval, ?_⟩
  rw [hval]
  rfl

/-- One step of an else-if chain over the errors object: if the tail is the
base object or one assignment on it, so is the whole conditional. -/
theorem chainStep {c : Prop} [Decidable c] {base rest : ErrMap} {k v : String}
    (h : rest = base ∨ ∃ k2 v2, rest = setErr base k2 v2) :
    (if c then setErr base k v else rest) = base ∨
    ∃ k2 v2, (if c then setErr base k v else rest) = setErr base k2 v2 := by
  by_cases hc : c
  · rw [if_pos hc]
    exact Or.inr ⟨k, v, rfl⟩
  · rw [if_neg hc]
    exact h

/-- The dialer validator returns the base errors, possibly with one
assignment from the cross-field chain. -/
theorem dialerValidate_shape (date : String) (m : DialerMetrics) :
    dialerValidate date m = baseErrors date (dialerEntries m) ∨
    ∃ k v, dialerValidate date m = setErr (baseErrors date (dialerEntries m)) k v := by
  simp only [dialerValidate]
  exact chainStep (chainStep (chainStep (chainStep (chainStep (chainStep (chainStep (chainStep (chainStep (chainStep (Or.inl rfl))))))))))

/-- The setter validator returns the base errors, possibly with one
assignment from the cross-field chain. -/
theorem setterValidate_shape (date : String) (m : SetterMetrics) :
    setterValidate date m = baseErrors date (setterEntries m) ∨
    ∃ k v, setterValidate date m = setErr (baseErrors date (setterEntries m)) k v := by
  simp only [setterValidate]
  exact chainStep (chainStep (chainStep (chainStep (chainStep (chainStep (chainStep (chainStep (Or.inl rfl))))))))

/-- The closer validator returns the base errors, possibly with one
assignment from the cross-field chain. -/
theorem closerValidate_shape (date : String) (m : CloserMetrics) :
    closerValidate date m = baseErrors date (closerEntries m) ∨
    ∃ k v, closerValidate date m = setErr (baseErrors date (closerEntries m)) k v := by
  simp only [closerValidate]
  exact chainStep (chainStep (chainStep (chainStep (chainStep (chainStep (chainStep (chainStep (chainStep (chainStep (chainStep (chainStep (chainStep (Or.inl rfl)))))))))))))

/-- C3: in every role validator the cross-field rules form one else-if
chain, so at most one cross-field error entry (an entry whose message is
not one of the two per-field messages) ever appears in the returned errors
object, for every input record. -/
theorem claim_C3_validators_single_cross_field_error :
    (∀ (date : String) (m : DialerMetrics), crossCount (dialerValidate date m) ≤ 1) ∧
    (∀ (date : String) (m : SetterMetrics), crossCount (setterValidate date m) ≤ 1) ∧
    (∀ (date : String) (m : CloserMetrics), crossCount (closerValidate date m) ≤ 1) := by
  refine ⟨?_, ?_, ?_⟩
  · intro date m
    rcases dialerValidate_shape date m with h | ⟨k, v, h⟩
    · rw [h, crossCount_eq_zero (baseErrors_msgs date (dialerEntries m))]
      exact Nat.zero_le 1
    · rw [h]
      exact crossCount_setErr_le_one k v (baseErrors_msgs _ _) (baseErrors_nodupKeys _ _)
  · intro date m
    rcases setterValidate_shape date m with h | ⟨k, v, h⟩
    · rw [h, crossCount_eq_zero (baseErrors_msgs date (setterEntries m))]
      exact Nat.zero_le 1
    · rw [h]
      exact crossCount_setErr_le_one k v (baseErrors_msgs _ _) (baseErrors_nodupKeys _ _)
  · intro date m
    rcases closerValidate_shape date m with h | ⟨k, v, h⟩
    · rw [h, crossCount_eq_zero (baseErrors_msgs date (closerEntries m))]
      exact Nat.zero_le 1
    · rw [h]
      exact crossCount_setErr_le_one k v (baseErrors_msgs _ _) (baseErrors_nodupKeys _ _)

/-- Counterexample to C1 as stated: a closer submission whose validation
fails (dailyCallsBooked 1 against a zero sum) targeting a key that already
holds a record, with the overwrite flag unset, receives the conflict
response carrying the existing date, not the rejected errors response,
because the source performs the existing-record check before the
errors-return. -/
theorem claim_C1_counterexample :
    closerValidate "2025-01-03"
      ⟨some 1, some 0, some 0, some 0, some 0, some 0, some 0, some 0, some 0,
        some 0, some 0⟩ ≠ [] ∧
    closerAction "2025-01-03" false
      ⟨some 1, some 0, some 0, some 0, some 0, some 0, some 0, some 0, some 0,
        some 0, some 0⟩
      (some ⟨some 0, some 0, some 0, some 0, some 0, some 0, some 0, some 0, some 0,
        some 0, some 0⟩) =
      (SubmitOutcome.conflict "2025-01-03",
        some ⟨some 0, some 0, some 0, some 0, some 0, some 0, some 0, some 0, some 0,
          some 0, some 0⟩) := by
  constructor
  · have hbase : baseErrors "2025-01-03"
        (closerEntries ⟨some 1, some 0, some 0, some 0, some 0, some 0, some 0, some 0, some 0,
          some 0, some 0⟩) = [] := by
      refine baseErrors_eq_nil _ _ (by simp) ?_
      simp [closerEntries, badNum_some]
    simp [closerValidate, hbase, setErr, jadd_some, jsub_some, jgt_some, jlt_some, jle_some,
      jeq_some, jne_some]
  · simp [closerAction]

/-- C1 (amended): in every role action the existing-record check precedes
the errors return, so a submission with a non-empty errors object performs
no write, is answered with the conflict response when a record exists for
the key and the overwrite flag is unset, and is answered with the rejected
errors response exactly when the flag is set or no record exists. -/
theorem claim_C1_amended_rejected_after_conflict_check :
    (∀ (date : String) (fo : Bool) (m : CloserMetrics) (st : Option CloserMetrics),
      closerValidate date m ≠ [] →
      (closerAction date fo m st).2 = st ∧
      (closerAction date fo m st).1 =
        (if fo = false ∧ st.isSome then SubmitOutcome.conflict date
          else SubmitOutcome.rejected (closerValidate date m))) ∧
    (∀ (date : String) (fo : Bool) (m : DialerMetrics) (st : Option DialerMetrics),
      dialerValidate date m ≠ [] →
      (dialerAction date fo m st).2 = st ∧
      (dialerAction date fo m st).1 =
        (if fo = false ∧ st.isSome then SubmitOutcome.conflict date
          else SubmitOutcome.rejected (dialerValidate date m))) ∧
    (∀ (date : String) (fo : Bool) (m : SetterMetrics) (st : Option SetterMetrics),
      setterValidate date m ≠ [] →
      (setterAction date fo m st).2 = st ∧
      (setterAction date fo m st).1 =
        (if fo = false ∧ st.isSome then SubmitOutcome.conflict date
          else SubmitOutcome.rejected (setterValidate date m))) := by
  refine ⟨?_, ?_, ?_⟩
  · intro date fo m st h
    have hlen : 0 < (closerValidate date m).length := List.length_pos.mpr h
    cases fo <;> cases st <;> refine ⟨?_, ?_⟩ <;> simp [closerAction, hlen]
  · intro date fo m st h
    have hlen : 0 < (dialerValidate date m).length := List.length_pos.mpr h
    cases fo <;> cases st <;> refine ⟨?_, ?_⟩ <;> simp [dialerAction, hlen]
  · intro date fo m st h
    have hlen : 0 < (setterValidate date m).length := List.length_pos.mpr h
    cases fo <;> cases st <;> refine ⟨?_, ?_⟩ <;> simp [setterAction, hlen]

/-- Witness for C1 (amended): the closer conjunct applied to the failing
submission with no stored record: the rejected errors response is returned
and nothing is written. -/
theorem claim_C1_amended_witness :
    (closerAction "2025-01-03" false
      ⟨some 1, some 0, some 0, some 0, some 0, some 0, some 0, some 0, some 0,
        some 0, some 0⟩ none).2 = none ∧
    (closerAction "2025-01-03" false
      ⟨some 1, some 0, some 0, some 0, some 0, some 0, some 0, some 0, some 0,
        some 0, some 0⟩ none).1 =
      SubmitOutcome.rejected
        (closerValidate "2025-01-03"
          ⟨some 1, some 0, some 0, some 0, some 0, some 0, some 0, some 0, some 0,
            some 0, some 0⟩) := by
  have h := claim_C1_amended_rejected_after_conflict_check.1 "2025-01-03" false
    ⟨some 1, some 0, some 0, some 0, some 0, some 0, some 0, some 0, some 0,
      some 0, some 0⟩ none
    (by
      have hbase : baseErrors "2025-01-03"
          (closerEntries ⟨some 1, some 0, some 0, some 0, some 0, some 0, some 0, some 0, some 0,
            some 0, some 0⟩) = [] := by
        refine baseErrors_eq_nil _ _ (by simp) ?_
        simp [closerEntries, badNum_some]
      simp [closerValidate, hbase, setErr, jadd_some, jsub_some, jgt_some, jlt_some, jle_some,
        jeq_some, jne_some])
  refine ⟨h.1, ?_⟩
  rw [h.2]
  simp

/-- C6: a closer submission targeting a key that already holds a record is
answered, without the overwrite flag, by the conflict response carrying the
submitted date and performs no write; resubmitted with the flag set and a
passing validation it performs the upsert, and the stored record afterwards
holds exactly the submitted metric fields (full replacement). -/
theorem claim_C6_overwrite_replaces_record :
    ∀ (date : String) (m r : CloserMetrics),
      closerAction date false m (some r) = (SubmitOutcome.conflict date, some r) ∧
      (closerValidate date m = [] →
        closerAction date true m (some r) = (SubmitOutcome.success, some m)) := by
  intro date m r
  constructor
  · simp [closerAction]
  · intro h
    simp [closerAction, h]

/-- Witness for C6: the accepted spec-example submission overwrites a stored
all-zero record in full. -/
theorem claim_C6_overwrite_replaces_record_witness :
    closerAction "2025-01-02" true
      ⟨some 10, some 4, some 3, some 1, some 1, some 1, some 0, some 0, some 0,
        some 0, some 0⟩
      (some ⟨some 0, some 0, some 0, some 0, some 0, some 0, some 0, some 0, some 0,
        some 0, some 0⟩) =
      (SubmitOutcome.success,
        some ⟨some 10, some 4, some 3, some 1, some 1, some 1, some 0, some 0, some 0,
          some 0, some 0⟩) :=
  (claim_C6_overwrite_replaces_record "2025-01-02"
    ⟨some 10, some 4, some 3, some 1, some 1, some 1, some 0, some 0, some 0,
      some 0, some 0⟩
    ⟨some 0, some 0, some 0, some 0, some 0, some 0, some 0, some 0, some 0,
      some 0, some 0⟩).2 closerValidate_goodSum_eval

/-- One step of an else-if chain, tracking a forbidden message: if the
assigned message differs from the target and the tail avoids the target
whenever the condition fails, the whole conditional avoids the target. -/
theorem chainMemStep {c : Prop} [Decidable c] {base rest : ErrMap} {k v target : String}
    (hv : v ≠ target) (hbase : ∀ p ∈ base, p.2 ≠ target)
    (hrest : ¬c → ∀ p ∈ rest, p.2 ≠ target) :
    ∀ p ∈ (if c then setErr base k v else rest), p.2 ≠ target := by
  intro p hp
  by_cases hc : c
  · rw [if_pos hc] at hp
    rcases mem_setErr hp with h | h
    · exact hbase p h
    · rw [h]
      exact hv
  · rw [if_neg hc] at hp
    exact hrest hc p hp

/-- One step of an else-if chain whose condition is known false. -/
theorem chainFalseStep {c : Prop} [Decidable c] {base rest : ErrMap} {k v target : String}
    (hc : ¬c) (hrest : ∀ p ∈ rest, p.2 ≠ target) :
    ∀ p ∈ (if c then setErr base k v else rest), p.2 ≠ target := by
  rw [if_neg hc]
  exact hrest

/-- C10: in the setter field-validator, for every submission whose fields
are all numeric and non-negative, no entry of the returned errors object
ever carries the message Cannot exceed Revenue Generated: the three
branches reporting an individual revenue-breakdown field exceeding
revenueGenerated sit behind the rule revenueGenerated at least
newCashCollected plus recurringCashCollected plus downsellRevenue, whose
passing together with non-negativity makes each of the three conditions
false (that message occurs only under the keys newCashCollected,
recurringCashCollected and downsellRevenue). -/
theorem claim_C10_setter_breakdown_branches_unreachable :
    ∀ (date : String) (m : SetterMetrics),
      (∀ p ∈ setterEntries m, ∃ q : ℚ, p.2 = some q ∧ 0 ≤ q) →
      ∀ p ∈ setterValidate date m, p.2 ≠ "Cannot exceed Revenue Generated" := by
  intro date m hnn
  have hbase : ∀ p ∈ baseErrors date (setterEntries m),
      p.2 ≠ "Cannot exceed Revenue Generated" := by
    intro p hp
    have hmsg := baseErrors_msgs date (setterEntries m) p hp
    have : p.2 = "Please select a date" ∨ p.2 = "Please enter a valid number" := by
      simpa [isFieldMsg] using hmsg
    rcases this with h | h <;> rw [h] <;> decide
  obtain ⟨rv, hrv, hrvnn⟩ := hnn ("revenueGenerated", m.revenueGenerated)
    (by simp [setterEntries])
  obtain ⟨nc, hnc, hncnn⟩ := hnn ("newCashCollected", m.newCashCollected)
    (by simp [setterEntries])
  obtain ⟨rc, hrc, hrcnn⟩ := hnn ("recurringCashCollected", m.recurringCashCollected)
    (by simp [setterEntries])
  obtain ⟨dr, hdr, hdrnn⟩ := hnn ("downsellRevenue", m.downsellRevenue)
    (by simp [setterEntries])
  simp only at hrv hnc hrc hdr
  simp only [setterValidate]
  refine chainMemStep (by decide) hbase (fun h1 => ?_)
  refine chainMemStep (by decide) hbase (fun h2 => ?_)
  refine chainMemStep (by decide) hbase (fun h3 => ?_)
  refine chainMemStep (by decide) hbase (fun h4 => ?_)
  refine chainMemStep (by decide) hbase (fun h5 => ?_)
  have hsum : rv ≥ nc + rc + dr := by
    by_contra hlt
    apply h5
    rw [hrv, hnc, hrc, hdr, jadd_some, jadd_some, jlt_some]
    linarith
  refine chainFalseStep ?_ (chainFalseStep ?_ (chainFalseStep ?_ hbase))
  · rw [hnc, hrv, jgt_some]
    intro h
    linarith
  · rw [hrc, hrv, jgt_some]
    intro h
    linarith
  · rw [hdr, hrv, jgt_some]
    intro h
    linarith

/-- Witness for C10: the all-zero setter submission satisfies the
numeric-and-non-negative hypothesis and its errors object has no entry with
the breakdown message. -/
theorem claim_C10_setter_breakdown_branches_unreachable_witness :
    (setterValidate "2025-01-02"
      ⟨some 0, some 0, some 0, some 0, some 0, some 0, some 0, some 0, some 0,
        some 0, some 0, some 0⟩).all
      (fun p => !(p.2 == "Cannot exceed Revenue Generated")) = true := by
  rw [List.all_eq_true]
  intro p hp
  have h := claim_C10_setter_breakdown_branches_unreachable "2025-01-02"
    ⟨some 0, some 0, some 0, some 0, some 0, some 0, some 0, some 0, some 0,
      some 0, some 0, some 0⟩
    (by
      intro q hq
      simp [setterEntries] at hq
      rcases hq with rfl | rfl | rfl | rfl | rfl | rfl | rfl | rfl | rfl | rfl | rfl | rfl <;>
        exact ⟨0, rfl, le_refl 0⟩) p hp
  simpa using h

/-- C5: the percentage-delta function returns 100 when the previous average
is 0 and the current one positive, 0 when the previous is 0 and the current
non-positive, and otherwise the rounded value of (current minus previous)
over previous times 100; in particular 5 against 0 gives 100, 0 against 0
gives 0, and 15 against 10 gives 50.  Being a total function into the
integers it never returns infinity, NaN or null. -/
theorem claim_C5_percentage_delta :
    (∀ current : ℚ, 0 < current → calcPercentageDiff current 0 = 100) ∧
    (∀ current : ℚ, current ≤ 0 → calcPercentageDiff current 0 = 0) ∧
    (∀ current previous : ℚ, previous ≠ 0 →
      calcPercentageDiff current previous =
        jsRound ((current - previous) / previous * 100)) ∧
    calcPercentageDiff 5 0 = 100 ∧
    calcPercentageDiff 0 0 = 0 ∧
    calcPercentageDiff 15 10 = 50 := by
  refine ⟨?_, ?_, ?_, ?_, ?_, ?_⟩
  · intro c h
    simp [calcPercentageDiff, h]
  · intro c h
    simp [calcPercentageDiff, not_lt.mpr h]
  · intro c p h
    simp [calcPercentageDiff, h]
  · norm_num [calcPercentageDiff]
  · norm_num [calcPercentageDiff]
  · have h : ((15 : ℚ) - 10) / 10 * 100 = 50 := by norm_num
    rw [calcPercentageDiff, if_neg (by norm_num), h, jsRound]
    rw [Int.floor_eq_iff]
    constructor <;> norm_num

/-- Witness for C5: the three guarded conjuncts applied at the concrete
pairs of the spec. -/
theorem claim_C5_percentage_delta_witness :
    calcPercentageDiff 5 0 = 100 ∧
    calcPercentageDiff (-3) 0 = 0 ∧
    calcPercentageDiff 15 10 = jsRound ((15 - 10) / 10 * 100) :=
  ⟨claim_C5_percentage_delta.1 5 (by norm_num),
   claim_C5_percentage_delta.2.1 (-3) (by norm_num),
   claim_C5_percentage_delta.2.2.1 15 10 (by norm_num)⟩

/-- C7: for range token 7d at any instant now, the resolver yields the
current window from the start of day (end minus 6 days) to the end of day
of now, spanning exactly 7 calendar days, and a previous window equal to
both bounds shifted back 7 days, also spanning 7 days, ending exactly one
millisecond before the current window starts: zero gap and zero overlap. -/
theorem claim_C7_range_7d_windows :
    ∀ (parseISO : String → Option ℤ) (q : AnalyticsQuery) (now : ℤ),
      q.range = "7d" →
      (resolveRange parseISO q now).endT = endOfDay now ∧
      (resolveRange parseISO q now).startT = startOfDay (subDays (endOfDay now) 6) ∧
      (resolveRange parseISO q now).endT - (resolveRange parseISO q now).startT + 1 =
        7 * msPerDay ∧
      (resolveRange parseISO q now).previousStart =
        subDays (resolveRange parseISO q now).startT 7 ∧
      (resolveRange parseISO q now).previousEnd =
        subDays (resolveRange parseISO q now).endT 7 ∧
      (resolveRange parseISO q now).previousEnd -
        (resolveRange parseISO q now).previousStart + 1 = 7 * msPerDay ∧
      (resolveRange parseISO q now).previousEnd + 1 =
        (resolveRange parseISO q now).startT ∧
      (resolveRange parseISO q now).daysInRange = 7 ∧
      (resolveRange parseISO q now).daysInPreviousRange = 7 := by
  intro parseISO q now h
  have hr : resolveRange parseISO q now =
      { startT := startOfDay (subDays (endOfDay now) 6), endT := endOfDay now,
        previousStart := startOfDay (subDays (startOfDay (subDays (endOfDay now) 6)) 7),
        previousEnd := endOfDay (subDays (endOfDay now) 7),
        daysInRange := 7, daysInPreviousRange := 7 } := by
    simp [resolveRange, h]
  rw [hr]
  refine ⟨rfl, rfl, ?_, ?_, ?_, ?_, ?_, rfl, rfl⟩ <;>
    · simp only [startOfDay, endOfDay, subDays, msPerDay]
      omega

/-- Witness for C7: the 7d resolution at instant zero. -/
theorem claim_C7_range_7d_windows_witness :
    (resolveRange (fun _ => none) ⟨"7d", none, none⟩ 0).endT = endOfDay 0 ∧
    (resolveRange (fun _ => none) ⟨"7d", none, none⟩ 0).startT =
      startOfDay (subDays (endOfDay 0) 6) ∧
    (resolveRange (fun _ => none) ⟨"7d", none, none⟩ 0).endT -
      (resolveRange (fun _ => none) ⟨"7d", none, none⟩ 0).startT + 1 = 7 * msPerDay ∧
    (resolveRange (fun _ => none) ⟨"7d", none, none⟩ 0).previousStart =
      subDays (resolveRange (fun _ => none) ⟨"7d", none, none⟩ 0).startT 7 ∧
    (resolveRange (fun _ => none) ⟨"7d", none, none⟩ 0).previousEnd =
      subDays (resolveRange (fun _ => none) ⟨"7d", none, none⟩ 0).endT 7 ∧
    (resolveRange (fun _ => none) ⟨"7d", none, none⟩ 0).previousEnd -
      (resolveRange (fun _ => none) ⟨"7d", none, none⟩ 0).previousStart + 1 =
      7 * msPerDay ∧
    (resolveRange (fun _ => none) ⟨"7d", none, none⟩ 0).previousEnd + 1 =
      (resolveRange (fun _ => none) ⟨"7d", none, none⟩ 0).startT ∧
    (resolveRange (fun _ => none) ⟨"7d", none, none⟩ 0).daysInRange = 7 ∧
    (resolveRange (fun _ => none) ⟨"7d", none, none⟩ 0).daysInPreviousRange = 7 :=
  claim_C7_range_7d_windows (fun _ => none) ⟨"7d", none, none⟩ 0 rfl

/-- Counterexample to C8 as stated: at instant zero, with present but
unparsable custom dates, the fallback current window spans 31 calendar
days (not 30) and its start differs from the start of the default 30d
window at the same instant by one day, because the fallback subtracts 30
days from the end of day while the default branch subtracts 29. -/
theorem claim_C8_counterexample :
    (resolveRange (fun _ => none) ⟨"custom", some "2025-13-99", some "2025-13-99"⟩ 0).endT -
      (resolveRange (fun _ => none) ⟨"custom", some "2025-13-99", some "2025-13-99"⟩ 0).startT +
      1 = 31 * msPerDay ∧
    (resolveRange (fun _ => none) ⟨"custom", some "2025-13-99", some "2025-13-99"⟩ 0).startT ≠
      (resolveRange (fun _ => none) ⟨"30d", none, none⟩ 0).startT := by
  constructor
  · simp [resolveRange, strTruthy, startOfDay, endOfDay, subDays, msPerDay]
  · simp [resolveRange, strTruthy, startOfDay, endOfDay, subDays, msPerDay]

/-- C8 (amended): for every custom-range request whose startDate and
endDate parameters are present but at least one fails to parse, the
resolver silently falls back: it reports daysInRange and
daysInPreviousRange of 30 and returns no error, but the current window it
produces runs from start of day (end minus 30 days) to the end of the
current day: a span of 31 calendar days, one day longer than the default
30d window, and the previous window, shifted the same way, overlaps the
current one by one day. -/
theorem claim_C8_amended_custom_fallback :
    ∀ (parseISO : String → Option ℤ) (q : AnalyticsQuery) (now : ℤ) (sd ed : String),
      q.range = "custom" → q.startDate = some sd → sd ≠ "" →
      q.endDate = some ed → ed ≠ "" →
      (parseISO sd = none ∨ parseISO ed = none) →
      (resolveRange parseISO q now).daysInRange = 30 ∧
      (resolveRange parseISO q now).daysInPreviousRange = 30 ∧
      (resolveRange parseISO q now).startT = startOfDay now - 30 * msPerDay ∧
      (resolveRange parseISO q now).endT = startOfDay now + msPerDay - 1 ∧
      (resolveRange parseISO q now).endT - (resolveRange parseISO q now).startT + 1 =
        31 * msPerDay ∧
      (resolveRange parseISO q now).previousStart = startOfDay now - 60 * msPerDay ∧
      (resolveRange parseISO q now).previousEnd = startOfDay now - 29 * msPerDay - 1 ∧
      (resolveRange parseISO q now).startT ≤ (resolveRange parseISO q now).previousEnd := by
  intro parseISO q now sd ed hrange hsd hsdne hed hedne hnone
  have hcond : q.range = "custom" ∧ strTruthy q.startDate ∧ strTruthy q.endDate := by
    refine ⟨hrange, ?_, ?_⟩
    · rw [hsd]
      simp [strTruthy, hsdne]
    · rw [hed]
      simp [strTruthy, hedne]
  have hfall : resolveRange parseISO q now =
      { startT := startOfDay (subDays (endOfDay now) 30),
        endT := endOfDay (endOfDay now),
        previousStart := startOfDay (subDays (startOfDay (subDays (endOfDay now) 30)) 30),
        previousEnd := endOfDay (subDays (endOfDay (endOfDay now)) 30),
        daysInRange := 30, daysInPreviousRange := 30 } := by
    rw [resolveRange]
    rw [if_pos hcond]
    rw [hsd, hed]
    simp only [Option.getD_some]
    rcases hnone with h | h
    · rw [h]
    · rw [h]
      rcases hps : parseISO sd with _ | ps <;> rfl
  rw [hfall]
  refine ⟨rfl, rfl, ?_, ?_, ?_, ?_, ?_, ?_⟩ <;>
    · simp only [startOfDay, endOfDay, subDays, msPerDay]
      omega

/-- Witness for C8 (amended): the fallback applied at instant zero with
unparsable dates. -/
theorem claim_C8_amended_custom_fallback_witness :
    (resolveRange (fun _ => none) ⟨"custom", some "x", some "y"⟩ 0).daysInRange = 30 ∧
    (resolveRange (fun _ => none) ⟨"custom", some "x", some "y"⟩ 0).daysInPreviousRange = 30 ∧
    (resolveRange (fun _ => none) ⟨"custom", some "x", some "y"⟩ 0).startT =
      startOfDay 0 - 30 * msPerDay ∧
    (resolveRange (fun _ => none) ⟨"custom", some "x", some "y"⟩ 0).endT =
      startOfDay 0 + msPerDay - 1 ∧
    (resolveRange (fun _ => none) ⟨"custom", some "x", some "y"⟩ 0).endT -
      (resolveRange (fun _ => none) ⟨"custom", some "x", some "y"⟩ 0).startT + 1 =
      31 * msPerDay ∧
    (resolveRange (fun _ => none) ⟨"custom", some "x", some "y"⟩ 0).previousStart =
      startOfDay 0 - 60 * msPerDay ∧
    (resolveRange (fun _ => none) ⟨"custom", some "x", some "y"⟩ 0).previousEnd =
      startOfDay 0 - 29 * msPerDay - 1 ∧
    (resolveRange (fun _ => none) ⟨"custom", some "x", some "y"⟩ 0).startT ≤
      (resolveRange (fun _ => none) ⟨"custom", some "x", some "y"⟩ 0).previousEnd :=
  claim_C8_amended_custom_fallback (fun _ => none) ⟨"custom", some "x", some "y"⟩ 0
    "x" "y" rfl rfl (by decide) rfl (by decide) (Or.inl rfl)

/-- Lookup after one reducer step: the bucket of the row day receives the
row, every other day is untouched. -/
theorem lookupBucket_addRow (acc : List (ℤ × RevenueBucket)) (r : SetterRow) (k : ℤ) :
    lookupBucket (addRow acc r) k =
      if k = r.day then some (bucketAdd ((lookupBucket acc k).getD emptyBucket) r)
      else lookupBucket acc k := by
  unfold lookupBucket addRow
  split
  case isTrue hany =>
    rw [List.find?_map]
    have hpred : ((fun p : ℤ × RevenueBucket => p.1 == k) ∘
        fun p => if p.1 == r.day then (p.1, bucketAdd p.2 r) else p) =
        fun q : ℤ × RevenueBucket => q.1 == k := by
      funext q
      by_cases hq : q.1 = r.day <;> simp [Function.comp, hq]
    rw [hpred]
    by_cases hk : k = r.day
    · rw [if_pos hk]
      have hsome : (acc.find? (fun p => p.1 == k)).isSome := by
        rw [List.find?_isSome]
        rcases List.any_eq_true.mp hany with ⟨q, hq, hqk⟩
        refine ⟨q, hq, ?_⟩
        rw [hk]
        exact hqk
      rcases Option.isSome_iff_exists.mp hsome with ⟨q, hq⟩
      rw [hq]
      have hqk := List.find?_some hq
      simp only [] at hqk
      have hq1 : q.1 = k := by simpa using hqk
      have hqday : q.1 = r.day := by rw [hq1, hk]
      simp [hqday]
    · rw [if_neg hk]
      cases hfind : acc.find? (fun p => p.1 == k) with
      | none => rfl
      | some q =>
        have hqk := List.find?_some hfind
        simp only [] at hqk
        have hq1 : q.1 = k := by simpa using hqk
        have hnd : ¬(q.1 = r.day) := by
          rw [hq1]
          exact hk
        simp [hnd]
  case isFalse hany =>
    rw [List.find?_append]
    by_cases hk : k = r.day
    · have hnone : acc.find? (fun p => p.1 == k) = none := by
        rw [List.find?_eq_none]
        intro q hq hqk
        apply hany
        refine List.any_eq_true.mpr ⟨q, hq, ?_⟩
        rw [← hk]
        exact hqk
      rw [if_pos hk, hnone]
      simp [hk]
    · rw [if_neg hk]
      have hne : ((r.day : ℤ) == k) = false := by
        simp [Ne.symm hk]
      simp [List.find?, hne]

/-- Lookup after the whole reduction, relative to an arbitrary starting
accumulator: the bucket of a day is the fold of the rows of that day on top
of whatever the accumulator already held. -/
theorem lookupBucket_foldl (rows : List SetterRow) (acc : List (ℤ × RevenueBucket)) (k : ℤ) :
    lookupBucket (rows.foldl addRow acc) k =
      match lookupBucket acc k with
      | some b => some ((rows.filter (fun r => r.day == k)).foldl bucketAdd b)
      | none =>
        if (rows.filter (fun r => r.day == k)) = [] then none
        else some ((rows.filter (fun r => r.day == k)).foldl bucketAdd emptyBucket) := by
  induction rows generalizing acc with
  | nil =>
    cases h : lookupBucket acc k <;> simp [h]
  | cons r t ih =>
    rw [List.foldl_cons, ih (addRow acc r), lookupBucket_addRow]
    by_cases hk : k = r.day
    · rw [if_pos hk]
      have hday : (r.day == k) = true := by
        simp [hk]
      have hfilter : (r :: t).filter (fun x => x.day == k) =
          r :: t.filter (fun x => x.day == k) := by
        simp [List.filter_cons, hday]
      rw [hfilter]
      cases h : lookupBucket acc k with
      | none =>
        simp only [h, Option.getD_none]
        rw [if_neg (List.cons_ne_nil _ _)]
        rfl
      | some b =>
        simp only [h, Option.getD_some]
        rfl
    · rw [if_neg hk]
      have hday : (r.day == k) = false := by
        simp
        exact fun hh => hk hh.symm
      have hfilter : (r :: t).filter (fun x => x.day == k) =
          t.filter (fun x => x.day == k) := by
        simp [List.filter_cons, hday]
      rw [hfilter]

/-- The reducer never produces two buckets for the same day. -/
theorem nodupKeys_addRow {acc : List (ℤ × RevenueBucket)} (r : SetterRow)
    (h : (acc.map Prod.fst).Nodup) : ((addRow acc r).map Prod.fst).Nodup := by
  unfold addRow
  split
  case isTrue =>
    have hmap : (acc.map (fun p => if p.1 == r.day then (p.1, bucketAdd p.2 r) else p)).map
        Prod.fst = acc.map Prod.fst := by
      rw [List.map_map]
      refine List.map_congr_left (fun p _ => ?_)
      by_cases hp : p.1 = r.day <;> simp [hp]
    rw [hmap]
    exact h
  case isFalse hany =>
    rw [List.map_append]
    refine List.Nodup.append h (List.nodup_singleton _) ?_
    intro a ha hb
    rcases List.mem_map.mp ha with ⟨q, hq, hfq⟩
    have hb2 : a = r.day := List.mem_singleton.mp hb
    apply hany
    refine List.any_eq_true.mpr ⟨q, hq, ?_⟩
    simp [hfq, hb2]

/-- The day-bucketed series has pairwise distinct day keys. -/
theorem nodupKeys_dailyRevenueData (rows : List SetterRow) :
    ((dailyRevenueData rows).map Prod.fst).Nodup := by
  unfold dailyRevenueData
  suffices h : ∀ acc : List (ℤ × RevenueBucket), (acc.map Prod.fst).Nodup →
      ((rows.foldl addRow acc).map Prod.fst).Nodup from h [] List.nodup_nil
  induction rows with
  | nil =>
    intro acc h
    exact h
  | cons r t ih =>
    intro acc h
    rw [List.foldl_cons]
    exact ih (addRow acc r) (nodupKeys_addRow r h)

/-- A day key appears in the series exactly when its lookup succeeds. -/
theorem mem_keys_iff_lookup (acc : List (ℤ × RevenueBucket)) (k : ℤ) :
    k ∈ acc.map Prod.fst ↔ lookupBucket acc k ≠ none := by
  unfold lookupBucket
  constructor
  · intro hm
    rcases List.mem_map.mp hm with ⟨q, hq, hfq⟩
    have hsome : (acc.find? (fun p => p.1 == k)).isSome :=
      List.find?_isSome.mpr ⟨q, hq, by simp [hfq]⟩
    rcases Option.isSome_iff_exists.mp hsome with ⟨q2, hq2⟩
    rw [hq2]
    simp
  · intro hne
    cases hfind : acc.find? (fun p => p.1 == k) with
    | none =>
      rw [hfind] at hne
      simp at hne
    | some q =>
      have hql := List.mem_of_find?_eq_some hfind
      have hqk := List.find?_some hfind
      simp only [] at hqk
      have hq1 : q.1 = k := by simpa using hqk
      exact hq1 ▸ List.mem_map_of_mem Prod.fst hql

/-- Closed form of the series lookup: the bucket of a day is the fold of
the rows of that day over the zero bucket, present exactly when such a row
exists. -/
theorem lookupBucket_dailyRevenueData (rows : List SetterRow) (k : ℤ) :
    lookupBucket (dailyRevenueData rows) k =
      if (rows.filter (fun r => r.day == k)) = [] then none
      else some ((rows.filter (fun r => r.day == k)).foldl bucketAdd emptyBucket) := by
  unfold dailyRevenueData
  rw [lookupBucket_foldl]
  rfl

/-- The bucket fold computes the field-wise sums. -/
theorem foldl_bucketAdd_sum (l : List SetterRow) (b : RevenueBucket) :
    l.foldl bucketAdd b =
      ⟨b.revenueGenerated + (l.map (fun r => safeNumber r.revenueGenerated)).sum,
       b.newCashCollected + (l.map (fun r => safeNumber r.newCashCollected)).sum,
       b.recurringCashCollected + (l.map (fun r => safeNumber r.recurringCashCollected)).sum,
       b.downsellRevenue + (l.map (fun r => safeNumber r.downsellRevenue)).sum⟩ := by
  induction l generalizing b with
  | nil =>
    cases b
    simp
  | cons r t ih =>
    rw [List.foldl_cons, ih]
    simp only [bucketAdd, List.map_cons, List.sum_cons, RevenueBucket.mk.injEq]
    refine ⟨by ring, by ring, by ring, by ring⟩

/-- A day has a bucket exactly when one of the rows falls on it. -/
theorem lookup_ne_none_iff (rows : List SetterRow) (k : ℤ) :
    lookupBucket (dailyRevenueData rows) k ≠ none ↔ ∃ r ∈ rows, r.day = k := by
  rw [lookupBucket_dailyRevenueData]
  by_cases hf : rows.filter (fun r => r.day == k) = []
  · rw [if_pos hf]
    constructor
    · intro h
      exact absurd rfl h
    · rintro ⟨r, hr, hday⟩
      have hmem : r ∈ rows.filter (fun r => r.day == k) :=
        List.mem_filter.mpr ⟨hr, by simp [hday]⟩
      rw [hf] at hmem
      exact absurd hmem (List.not_mem_nil r)
  · rw [if_neg hf]
    constructor
    · intro _
      rcases List.exists_mem_of_ne_nil _ hf with ⟨r, hr⟩
      rcases List.mem_filter.mp hr with ⟨hrows, hday⟩
      exact ⟨r, hrows, by simpa using hday⟩
    · intro _
      simp

/-- A day is listed in sortedDates exactly when one of the rows falls on
it. -/
theorem mem_sortedDates_iff (rows : List SetterRow) (k : ℤ) :
    k ∈ sortedDates rows ↔ ∃ r ∈ rows, r.day = k := by
  unfold sortedDates
  rw [List.Perm.mem_iff (List.mergeSort_perm _ _)]
  rw [mem_keys_iff_lookup]
  exact lookup_ne_none_iff rows k

/-- C9: for every list of setter metric rows, in any order, the
day-bucketed revenue series has a bucket exactly for the days on which at
least one row exists (no zero-filled buckets), each bucket holds the sums
of the four revenue-like fields over the rows of its day, and the list of
bucket days is sorted ascending, duplicate-free, and identical for any
permutation of the input rows. -/
theorem claim_C9_daily_revenue_series :
    ∀ rows : List SetterRow,
      (∀ k : ℤ, (k ∈ sortedDates rows ↔ ∃ r ∈ rows, r.day = k) ∧
        (lookupBucket (dailyRevenueData rows) k ≠ none ↔ ∃ r ∈ rows, r.day = k)) ∧
      (∀ (k : ℤ) (b : RevenueBucket), lookupBucket (dailyRevenueData rows) k = some b →
        b.revenueGenerated =
          ((rows.filter (fun r => r.day == k)).map (fun r => safeNumber r.revenueGenerated)).sum ∧
        b.newCashCollected =
          ((rows.filter (fun r => r.day == k)).map (fun r => safeNumber r.newCashCollected)).sum ∧
        b.recurringCashCollected =
          ((rows.filter (fun r => r.day == k)).map
            (fun r => safeNumber r.recurringCashCollected)).sum ∧
        b.downsellRevenue =
          ((rows.filter (fun r => r.day == k)).map (fun r => safeNumber r.downsellRevenue)).sum) ∧
      (sortedDates rows).Sorted (· ≤ ·) ∧
      (sortedDates rows).Nodup ∧
      (∀ rows2 : List SetterRow, rows.Perm rows2 → sortedDates rows = sortedDates rows2) := by
  intro rows
  have hsorted : ∀ rws : List SetterRow, (sortedDates rws).Sorted (· ≤ ·) := by
    intro rws
    unfold sortedDates
    exact List.sorted_mergeSort' _
  have hnodup : ∀ rws : List SetterRow, (sortedDates rws).Nodup := by
    intro rws
    unfold sortedDates
    exact ((List.mergeSort_perm _ _).nodup_iff).mpr (nodupKeys_dailyRevenueData rws)
  refine ⟨fun k => ⟨mem_sortedDates_iff rows k, lookup_ne_none_iff rows k⟩, ?_,
    hsorted rows, hnodup rows, ?_⟩
  · intro k b hb
    rw [lookupBucket_dailyRevenueData] at hb
    by_cases hf : rows.filter (fun r => r.day == k) = []
    · rw [if_pos hf] at hb
      exact absurd hb (by simp)
    · rw [if_neg hf] at hb
      have hbv := Option.some_injective _ hb.symm
      rw [hbv, foldl_bucketAdd_sum]
      simp [emptyBucket]
  · intro rows2 hperm
    have hmemiff : ∀ a, a ∈ sortedDates rows ↔ a ∈ sortedDates rows2 := by
      intro a
      rw [mem_sortedDates_iff rows a, mem_sortedDates_iff rows2 a]
      constructor
      · rintro ⟨r, hr, hd⟩
        exact ⟨r, hperm.mem_iff.mp hr, hd⟩
      · rintro ⟨r, hr, hd⟩
        exact ⟨r, hperm.mem_iff.mpr hr, hd⟩
    have hp : (sortedDates rows).Perm (sortedDates rows2) :=
      (List.perm_ext_iff_of_nodup (hnodup rows) (hnodup rows2)).mpr hmemiff
    exact List.eq_of_perm_of_sorted hp (hsorted rows) (hsorted rows2)

/-- Witness for C9: a two-row list with out-of-order days sorts to the same
series as its swap, and the bucket of a singleton list carries the field
sum. -/
theorem claim_C9_daily_revenue_series_witness :
    ((sortedDates [⟨5, some 1, some 2, some 3, some 4⟩]).Sorted (· ≤ ·)) ∧
    ((bucketAdd emptyBucket ⟨5, some 1, some 2, some 3, some 4⟩).revenueGenerated =
      ((([⟨5, some 1, some 2, some 3, some 4⟩] : List SetterRow).filter
        (fun r => r.day == 5)).map (fun r => safeNumber r.revenueGenerated)).sum) ∧
    sortedDates [⟨1, some 0, some 0, some 0, some 0⟩, ⟨0, some 0, some 0, some 0, some 0⟩] =
      sortedDates [⟨0, some 0, some 0, some 0, some 0⟩, ⟨1, some 0, some 0, some 0, some 0⟩] :=
  ⟨(claim_C9_daily_revenue_series [⟨5, some 1, some 2, some 3, some 4⟩]).2.2.1,
   ((claim_C9_daily_revenue_series [⟨5, some 1, some 2, some 3, some 4⟩]).2.1 5
      (bucketAdd emptyBucket ⟨5, some 1, some 2, some 3, some 4⟩) rfl).1,
   (claim_C9_daily_revenue_series
      [⟨1, some 0, some 0, some 0, some 0⟩, ⟨0, some 0, some 0, some 0, some 0⟩]).2.2.2.2
      [⟨0, some 0, some 0, some 0, some 0⟩, ⟨1, some 0, some 0, some 0, some 0⟩]
      (List.Perm.swap _ _ _)⟩
